import Mathlib

set_option linter.unusedVariables false

/-
Shallow embedding of src/vsphere/resource_vsphere_virtual_machine.go.

The file embeds the four lifecycle handlers of the vSphere virtual-machine
resource (create, read, update, delete) as pure Lean functions.  Platform
collaborators (datacenter finder, VM finder, property collector, power-off
and destroy tasks) are supplied as explicit records of outcomes; wall-clock
time is an integer number of seconds; the unbounded guest-IP retry loop is
run on explicit fuel (the function returns none when the fuel runs out,
modelling divergence).  Collector calls are counted so that call-count
properties of the spec can be stated.
-/

namespace VSphereVM

/-- Go package-level default DNS suffix list, from the source. -/
def DefaultDNSSuffixes : List String := ["vsphere.local"]

/-- Go package-level default DNS server list, from the source. -/
def DefaultDNSServers : List String := ["8.8.8.8", "8.8.4.4"]

/-- Dynamic value returned by the schema accessor `d.Get`: the Go code holds
it as an `interface` value whose dynamic type is `string` for string-typed
schema fields and `int` for int-typed schema fields (the zero value, `""` or
`0`, when the field is unset). -/
inductive GoValue where
  | str (s : String)
  | int (n : Int)
deriving DecidableEq

/-- Go comparison `v != ""` on a dynamic `GoValue`.  When the dynamic type is
`int` the comparison is between an int-typed and a string-typed value, which
in Go is always unequal, hence always `true` — faithful to the source, where
`d.Get(prefix + ".size") != ""` compares an int-typed schema value to the
empty string. -/
def goValueNeEmptyString : GoValue → Bool
  | .str s => s != ""
  | .int _ => true

/-- One entry of the `network_interface` schema list as read by `d.Get`. -/
structure NetworkInterfaceConfig where
  label : String
  ipAddress : String
  subnetMask : String
deriving DecidableEq

/-- One entry of the `disk` schema list as read by `d.Get` (template and
datastore are string-typed fields, size and iops are int-typed fields; an
unset field reads as the zero value). -/
structure DiskConfig where
  template : String
  datastore : String
  size : Int
  iops : Int
deriving DecidableEq

/-- The configuration surface consumed by `resourceVSphereVirtualMachineCreate`:
the schema values of the resource.  Optional scalar fields are `Option`
(mirroring `d.GetOk`), list fields are lists. -/
structure CreateConfig where
  name : String
  vcpu : Int
  memory : Int
  bootDelay : Int
  datacenter : Option String
  cluster : Option String
  resourcePool : Option String
  gateway : Option String
  domain : Option String
  timeZone : Option String
  dnsSuffixes : List String
  dnsServers : List String
  networkInterfaces : List NetworkInterfaceConfig
  disks : List DiskConfig
deriving DecidableEq

/-- The `networkInterface` struct built by the create handler. -/
structure NetworkInterface where
  label : String
  ipAddress : String
  subnetMask : String
deriving DecidableEq

/-- The `hardDisk` struct built by the create handler. -/
structure HardDisk where
  size : Int
  iops : Int
deriving DecidableEq

/-- The `virtualMachine` struct assembled by the create handler before it
calls `deployVirtualMachine` or `createVirtualMachine`. -/
structure VirtualMachineModel where
  name : String
  vcpu : Int
  memoryMb : Int
  template : String
  datacenter : String
  cluster : String
  resourcePool : String
  datastore : String
  gateway : String
  domain : String
  timeZone : String
  dnsSuffixes : List String
  dnsServers : List String
  networkInterfaces : List NetworkInterface
  hardDisks : List HardDisk
deriving DecidableEq

/-- Disk-loop body for the disks after the first (`i > 0` in the source):
`if v := d.Get(prefix + ".size"); v != ""` guards the size assignment and
returns `"Size argument is required."` otherwise; `iops` is guarded the same
way.  Both `Get` results are int-typed dynamic values. -/
def scanRestDisks : List DiskConfig → Except String (List HardDisk)
  | [] => .ok []
  | d :: ds =>
    if goValueNeEmptyString (.int d.size) then
      let iops := if goValueNeEmptyString (.int d.iops) then d.iops else 0
      match scanRestDisks ds with
      | .error e => .error e
      | .ok t => .ok ({ size := d.size, iops := iops } :: t)
    else .error "Size argument is required."

/-- Disk loop of the create handler.  Returns the template and datastore
taken from the first disk together with the `hardDisk` list.  For `i = 0`:
if the (string-typed) template value is non-empty it becomes `vm.template`;
otherwise the (int-typed) size value is checked against `""` and, failing
that, the handler returns
`"If template argument is not specified, size argument is required."`. -/
def scanDisks : List DiskConfig → Except String (String × String × List HardDisk)
  | [] => .ok ("", "", [])
  | d0 :: rest =>
    let step0 : Except String (String × Int) :=
      if goValueNeEmptyString (.str d0.template) then .ok (d0.template, 0)
      else if goValueNeEmptyString (.int d0.size) then .ok ("", d0.size)
      else .error "If template argument is not specified, size argument is required."
    match step0 with
    | .error e => .error e
    | .ok (tpl, sz0) =>
      let ds := if goValueNeEmptyString (.str d0.datastore) then d0.datastore else ""
      let iops0 := if goValueNeEmptyString (.int d0.iops) then d0.iops else 0
      match scanRestDisks rest with
      | .error e => .error e
      | .ok hds => .ok (tpl, ds, { size := sz0, iops := iops0 } :: hds)

/-- Lines 192-286 of the source: assemble the `virtualMachine` struct from
the schema values, applying the DNS defaults when the lists are empty and
running the disk loop (the only fallible step). -/
def buildVirtualMachine (cfg : CreateConfig) : Except String VirtualMachineModel :=
  match scanDisks cfg.disks with
  | .error e => .error e
  | .ok (tpl, ds, disks) =>
    .ok
      { name := cfg.name
        vcpu := cfg.vcpu
        memoryMb := cfg.memory
        template := tpl
        datacenter := cfg.datacenter.getD ""
        cluster := cfg.cluster.getD ""
        resourcePool := cfg.resourcePool.getD ""
        datastore := ds
        gateway := cfg.gateway.getD ""
        domain := cfg.domain.getD ""
        timeZone := cfg.timeZone.getD ""
        dnsSuffixes := if cfg.dnsSuffixes.length > 0 then cfg.dnsSuffixes else DefaultDNSSuffixes
        dnsServers := if cfg.dnsServers.length > 0 then cfg.dnsServers else DefaultDNSServers
        networkInterfaces :=
          cfg.networkInterfaces.map
            (fun n => { label := n.label, ipAddress := n.ipAddress, subnetMask := n.subnetMask })
        hardDisks := disks }

/-- Flattened view of the `mo.VirtualMachine` summary property bag retrieved
by the property collector: `Summary.Config.MemorySizeMB`,
`Summary.Config.NumCpu`, `Summary.Runtime.BootTime` (seconds) and
`Summary.Guest.IpAddress`. -/
structure VmSummary where
  memorySizeMB : Int
  numCpu : Int
  bootTime : Int
  guestIpAddress : String
deriving DecidableEq

/-- The configuration surface consumed by `resourceVSphereVirtualMachineRead`:
the datacenter hint, the VM name, the boot-delay budget in seconds, and the
value of `d.Get("network_interface.0.ip_address")` (empty when the first
interface declares no static IP). -/
structure ReadConfig where
  datacenter : Option String
  name : String
  bootDelay : Int
  nic0IpAddress : String
deriving DecidableEq

/-- Platform collaborators of the read handler.  `dcNamed`/`dcDefault` are
the results of `finder.Datacenter`/`finder.DefaultDatacenter`; `vmLookup` is
the result of `finder.VirtualMachine`; the k-th call of
`collector.RetrieveOne` returns error flag `retrieveErr k` and leaves the
summary struct holding `retrieveVal k` (a failed call may leave a stale or
zero-valued summary, which the stream is free to model); `now` is the
wall-clock time in seconds at which `time.Since` is evaluated. -/
structure ReadPlatform where
  dcNamed : Except String String
  dcDefault : Except String String
  vmLookup : Except String Unit
  retrieveErr : Nat → Bool
  retrieveVal : Nat → VmSummary
  now : Int

/-- The externally observable resource state: the tracked identity
(`d.SetId`), the fields written back by `d.Set`, and the connection-info
host (`d.SetConnInfo`). -/
structure ResourceState where
  id : String
  datacenter : String
  memory : Int
  cpu : Int
  ipAddress : String
  connHost : String
deriving DecidableEq

/-- Result of a read: the final state, the returned error (`none` = nil),
the total number of `RetrieveOne` calls, the number of those calls made by
the address-resolution logic (after the initial one-round-trip summary
fetch), and the total seconds slept. -/
structure ReadOutcome where
  state : ResourceState
  err : Option String
  calls : Nat
  pollCalls : Nat
  waited : Int
deriving DecidableEq

/-- Datacenter resolution of the read handler: `d.GetOk("datacenter")`
selects between `finder.Datacenter` and `finder.DefaultDatacenter`. -/
def lookupDatacenterR (cfg : ReadConfig) (p : ReadPlatform) : Except String String :=
  match cfg.datacenter with
  | some _ => p.dcNamed
  | none => p.dcDefault

/-- The `for ip_address == ""` loop of the read handler: while the current
summary's guest IP is empty, issue another `RetrieveOne` (its error is
assigned and never inspected), take the guest IP from the new summary, and
sleep one second.  `k` is the index of the next collector call; the result
is the next free call index, the summary in hand at exit, and the seconds
slept inside the loop; `none` means the fuel ran out with the IP still
empty. -/
def dhcpPollLoop (p : ReadPlatform) : Nat → Nat → VmSummary → Int → Option (Nat × VmSummary × Int)
  | 0, k, mvm, slept => if mvm.guestIpAddress = "" then none else some (k, mvm, slept)
  | fuel+1, k, mvm, slept =>
    if mvm.guestIpAddress = "" then
      let _err := p.retrieveErr k
      dhcpPollLoop p fuel (k+1) (p.retrieveVal k) (slept + 1)
    else some (k, mvm, slept)

/-- Successful exit of the read handler: set `ip_address`, set the
connection info `host`, return nil. -/
def finishRead (st : ResourceState) (ip : String) (calls pollCalls : Nat) (waited : Int) : ReadOutcome :=
  { state := { st with ipAddress := ip, connHost := ip }
    err := none
    calls := calls
    pollCalls := pollCalls
    waited := waited }

/-- Lines 305-386 of the source, `resourceVSphereVirtualMachineRead`:
resolve the datacenter (propagating a lookup error), resolve the VM by name
(clearing the tracked identity and returning nil on failure), retrieve the
summary once (the error assigned to `err` and never checked), write back
datacenter, memory and cpu, then resolve the address: if the first
interface carries a static IP return it at once; otherwise compute
`remaining = boot_delay - (now - bootTime)`; when `remaining > 0` sleep,
re-retrieve, and run the retry loop until the guest IP is non-empty; when
`remaining <= 0` take the guest IP of the already-fetched summary directly. -/
def resourceVSphereVirtualMachineRead (cfg : ReadConfig) (p : ReadPlatform)
    (st : ResourceState) (fuel : Nat) : Option ReadOutcome :=
  match lookupDatacenterR cfg p with
  | .error e => some { state := st, err := some e, calls := 0, pollCalls := 0, waited := 0 }
  | .ok dcName =>
    match p.vmLookup with
    | .error _ =>
      some { state := { st with id := "" }, err := none, calls := 0, pollCalls := 0, waited := 0 }
    | .ok _ =>
      let _err0 := p.retrieveErr 0
      let mvm0 := p.retrieveVal 0
      let st1 := { st with datacenter := dcName, memory := mvm0.memorySizeMB, cpu := mvm0.numCpu }
      if cfg.nic0IpAddress != "" then
        some (finishRead st1 cfg.nic0IpAddress 1 0 0)
      else
        let remaining : Int := cfg.bootDelay - (p.now - mvm0.bootTime)
        if remaining > 0 then
          let _err1 := p.retrieveErr 1
          let mvm1 := p.retrieveVal 1
          match dhcpPollLoop p fuel 2 mvm1 0 with
          | none => none
          | some (k, mvmF, slept) =>
            some (finishRead st1 mvmF.guestIpAddress k (k - 1) (remaining + slept))
        else
          some (finishRead st1 mvm0.guestIpAddress 1 0 0)

/-- Platform collaborators of the create handler: the outcome of
`deployVirtualMachine` (clone-from-template path), the outcome of
`createVirtualMachine` (from-scratch path), and the platform seen by the
trailing read. -/
structure CreatePlatform where
  deployResult : Except String Unit
  createResult : Except String Unit
  read : ReadPlatform

/-- Result of a create: final state, returned error, number of provisioning
calls issued (`deployVirtualMachine` plus `createVirtualMachine`), and the
collector calls made by the trailing read. -/
structure CreateOutcome where
  state : ResourceState
  err : Option String
  provisionCalls : Nat
  readCalls : Nat
deriving DecidableEq

/-- The read handler, invoked at the end of create, reads the same schema
fields the create handler read: the datacenter hint, the name, the boot
delay, and the first interface's (static) IP address. -/
def readConfigOfCreate (cfg : CreateConfig) : ReadConfig :=
  { datacenter := cfg.datacenter
    name := cfg.name
    bootDelay := cfg.bootDelay
    nic0IpAddress := ((cfg.networkInterfaces.head?).map (fun n => n.ipAddress)).getD "" }

/-- Lines 189-303 of the source, `resourceVSphereVirtualMachineCreate`:
assemble the `virtualMachine` struct (the disk loop is the only fallible
step), call `deployVirtualMachine` when a template was given and
`createVirtualMachine` otherwise (wrapping a failure as `error: ...` and
returning it with the state untouched), then `d.SetId(vm.name)` and return
the result of the read handler. -/
def resourceVSphereVirtualMachineCreate (cfg : CreateConfig) (p : CreatePlatform)
    (st : ResourceState) (fuel : Nat) : Option CreateOutcome :=
  match buildVirtualMachine cfg with
  | .error e => some { state := st, err := some e, provisionCalls := 0, readCalls := 0 }
  | .ok vm =>
    let provision := if vm.template != "" then p.deployResult else p.createResult
    match provision with
    | .error e =>
      some { state := st, err := some ("error: " ++ e), provisionCalls := 1, readCalls := 0 }
    | .ok _ =>
      let st1 := { st with id := vm.name }
      match resourceVSphereVirtualMachineRead (readConfigOfCreate cfg) p.read st1 fuel with
      | none => none
      | some r =>
        some { state := r.state, err := r.err, provisionCalls := 1, readCalls := r.calls }

/-- The mutable desired values an update invocation carries (vcpu, memory,
location, network/DNS settings are all `ForceNew: false` in the schema). -/
structure UpdateConfig where
  vcpu : Int
  memory : Int
  datacenter : Option String
  gateway : Option String
  domain : Option String
  dnsSuffixes : List String
  dnsServers : List String
deriving DecidableEq

/-- Lines 388-390 of the source, `resourceVSphereVirtualMachineUpdate`: the
body is a single `return nil`; no schema field is read and no platform call
is made, so the state is returned untouched with a nil error. -/
def resourceVSphereVirtualMachineUpdate (cfg : UpdateConfig) (st : ResourceState) :
    ResourceState × Option String :=
  (st, none)

/-- The configuration surface consumed by the delete handler. -/
structure DeleteConfig where
  datacenter : Option String
  name : String
deriving DecidableEq

/-- Platform collaborators of the delete handler: datacenter and VM lookup,
then the submit and wait outcomes of the power-off task and of the destroy
task. -/
structure DeletePlatform where
  dcNamed : Except String String
  dcDefault : Except String String
  vmLookup : Except String Unit
  powerOffSubmit : Except String Unit
  powerOffWait : Except String Unit
  destroySubmit : Except String Unit
  destroyWait : Except String Unit

/-- Datacenter resolution of the delete handler, same shape as the read
handler's. -/
def lookupDatacenterD (cfg : DeleteConfig) (p : DeletePlatform) : Except String String :=
  match cfg.datacenter with
  | some _ => p.dcNamed
  | none => p.dcDefault

/-- Observable platform interactions of the delete handler, in the order
they are issued. -/
inductive DeleteEvent where
  | dcLookup
  | vmLookup
  | powerOffSubmit
  | powerOffWait
  | destroySubmit
  | destroyWait
deriving DecidableEq

/-- The full interaction trace of a delete that reaches the last wait. -/
def fullDeleteTrace : List DeleteEvent :=
  [.dcLookup, .vmLookup, .powerOffSubmit, .powerOffWait, .destroySubmit, .destroyWait]

/-- Lines 392-441 of the source, `resourceVSphereVirtualMachineDelete`:
resolve the datacenter, resolve the VM (both lookup errors returned as-is),
submit the power-off task, wait for it, submit the destroy task, wait for
it — every failure returns the error immediately with the state untouched;
only after the destroy wait succeeds is the tracked identity cleared.  The
first component records the calls issued, in order. -/
def resourceVSphereVirtualMachineDelete (cfg : DeleteConfig) (p : DeletePlatform)
    (st : ResourceState) : List DeleteEvent × ResourceState × Option String :=
  match lookupDatacenterD cfg p with
  | .error e => ([.dcLookup], st, some e)
  | .ok _ =>
    match p.vmLookup with
    | .error e => ([.dcLookup, .vmLookup], st, some e)
    | .ok _ =>
      match p.powerOffSubmit with
      | .error e => ([.dcLookup, .vmLookup, .powerOffSubmit], st, some e)
      | .ok _ =>
        match p.powerOffWait with
        | .error e => ([.dcLookup, .vmLookup, .powerOffSubmit, .powerOffWait], st, some e)
        | .ok _ =>
          match p.destroySubmit with
          | .error e =>
            ([.dcLookup, .vmLookup, .powerOffSubmit, .powerOffWait, .destroySubmit], st, some e)
          | .ok _ =>
            match p.destroyWait with
            | .error e => (fullDeleteTrace, st, some e)
            | .ok _ => (fullDeleteTrace, { st with id := "" }, none)

/-
Concrete scenario data used by counterexamples and witnesses.
-/

/-- Empty initial tracked state. -/
def st0 : ResourceState :=
  { id := "", datacenter := "", memory := 0, cpu := 0, ipAddress := "", connHost := "" }

/-- Tracked state whose identity is already the VM name. -/
def stVm1 : ResourceState := { st0 with id := "vm1" }

/-- A reconciled state snapshot (memory 2048, cpu 2, ip 10.0.0.5). -/
def stReconciled : ResourceState :=
  { id := "vm1", datacenter := "dc1", memory := 2048, cpu := 2
    ipAddress := "10.0.0.5", connHost := "10.0.0.5" }

/-- Summary with memory 2048, 2 vCPUs, boot time 0, and the given guest IP. -/
def sumIp (ip : String) : VmSummary :=
  { memorySizeMB := 2048, numCpu := 2, bootTime := 0, guestIpAddress := ip }

/-- Read configuration: no datacenter hint, DHCP first interface, zero boot
delay. -/
def cfgBudgetElapsed : ReadConfig :=
  { datacenter := none, name := "vm1", bootDelay := 0, nic0IpAddress := "" }

/-- Collector stream: the initial fetch sees an empty guest IP, every later
fetch would see 10.0.0.5. -/
def retBudgetElapsed : Nat → VmSummary
  | 0 => sumIp ""
  | _ => sumIp "10.0.0.5"

/-- Platform for the elapsed-budget scenario: lookups succeed, wall clock is
100 seconds after boot, so the boot-delay budget of 0 is long exhausted. -/
def platBudgetElapsed : ReadPlatform :=
  { dcNamed := .ok "dc1", dcDefault := .ok "dc1", vmLookup := .ok ()
    retrieveErr := fun _ => false, retrieveVal := retBudgetElapsed, now := 100 }

/-- Read configuration with a 30-second boot delay and a DHCP first
interface. -/
def cfgPollWait : ReadConfig :=
  { datacenter := none, name := "vm1", bootDelay := 30, nic0IpAddress := "" }

/-- Collector stub of the polling scenario: the post-wait fetch and the next
retry see an empty guest IP, the third post-wait fetch sees 10.0.0.5. -/
def retEmptyTwice : Nat → VmSummary
  | 0 => sumIp ""
  | 1 => sumIp ""
  | 2 => sumIp ""
  | _ => sumIp "10.0.0.5"

/-- Platform for the polling scenario: lookups succeed, 10 seconds since
boot, so 20 seconds of budget remain and the wait branch is taken. -/
def platPollWait : ReadPlatform :=
  { dcNamed := .ok "dc1", dcDefault := .ok "dc1", vmLookup := .ok ()
    retrieveErr := fun _ => false, retrieveVal := retEmptyTwice, now := 10 }

/-- Read configuration whose first interface declares a static address. -/
def cfgStaticNic : ReadConfig :=
  { datacenter := none, name := "vm1", bootDelay := 30, nic0IpAddress := "192.168.1.10" }

/-- Platform whose VM lookup fails (name absent from the platform). -/
def platVmMissing : ReadPlatform :=
  { dcNamed := .ok "dc1", dcDefault := .ok "dc1", vmLookup := .error "vm not found"
    retrieveErr := fun _ => false, retrieveVal := fun _ => sumIp "", now := 0 }

/-- Create configuration whose first (and only) disk has neither a template
nor a size: the schema accessor reads the unset int-typed size as 0. -/
def cfgNoSize : CreateConfig :=
  { name := "vm1", vcpu := 2, memory := 2048, bootDelay := 0
    datacenter := none, cluster := none, resourcePool := none, gateway := none
    domain := some "vsphere.local", timeZone := some "Etc/UTC"
    dnsSuffixes := [], dnsServers := []
    networkInterfaces := [{ label := "eth0", ipAddress := "", subnetMask := "" }]
    disks := [{ template := "", datastore := "", size := 0, iops := 0 }] }

/-- Create platform where provisioning succeeds and the trailing read also
succeeds. -/
def platCreateOk : CreatePlatform :=
  { deployResult := .ok (), createResult := .ok (), read := platBudgetElapsed }

/-- Same create configuration but with a sized first disk. -/
def cfgSized : CreateConfig :=
  { cfgNoSize with disks := [{ template := "", datastore := "", size := 20480, iops := 0 }] }

/-- Read platform whose datacenter lookups fail. -/
def platReadDcFail : ReadPlatform :=
  { dcNamed := .error "dc gone", dcDefault := .error "dc gone", vmLookup := .ok ()
    retrieveErr := fun _ => false, retrieveVal := fun _ => sumIp "", now := 0 }

/-- Create platform where provisioning succeeds but the trailing read fails
in the datacenter lookup. -/
def platCreateReadFail : CreatePlatform :=
  { deployResult := .ok (), createResult := .ok (), read := platReadDcFail }

/-- Outcome of a create whose provisioning succeeded and whose trailing read
failed: the error is surfaced while the identity stays set to the name. -/
def outCreateReadFail : CreateOutcome :=
  { state := { st0 with id := "vm1" }, err := some "dc gone"
    provisionCalls := 1, readCalls := 0 }

/-- Update invocation asking for 4 vCPUs and 4096 MB of memory. -/
def updCfgChanged : UpdateConfig :=
  { vcpu := 4, memory := 4096, datacenter := none, gateway := none, domain := none
    dnsSuffixes := [], dnsServers := [] }

/-- Create platform where the from-scratch provisioning task fails. -/
def platCreateProvFail : CreatePlatform :=
  { deployResult := .ok (), createResult := .error "task failed", read := platBudgetElapsed }

/-- The virtual-machine struct the create handler assembles from
`cfgSized`: empty template, a single 20480 MB boot disk, default DNS
lists. -/
def vmSized : VirtualMachineModel :=
  { name := "vm1", vcpu := 2, memoryMb := 2048, template := ""
    datacenter := "", cluster := "", resourcePool := "", datastore := ""
    gateway := "", domain := "vsphere.local", timeZone := "Etc/UTC"
    dnsSuffixes := DefaultDNSSuffixes, dnsServers := DefaultDNSServers
    networkInterfaces := [{ label := "eth0", ipAddress := "", subnetMask := "" }]
    hardDisks := [{ size := 20480, iops := 0 }] }

/-- Delete configuration with no datacenter hint. -/
def cfgDel : DeleteConfig := { datacenter := none, name := "vm1" }

/-- Delete platform where every call succeeds. -/
def platDeleteOk : DeletePlatform :=
  { dcNamed := .ok "dc1", dcDefault := .ok "dc1", vmLookup := .ok ()
    powerOffSubmit := .ok (), powerOffWait := .ok ()
    destroySubmit := .ok (), destroyWait := .ok () }

/-- Delete platform where the power-off wait fails. -/
def platDeletePoFail : DeletePlatform :=
  { dcNamed := .ok "dc1", dcDefault := .ok "dc1", vmLookup := .ok ()
    powerOffSubmit := .ok (), powerOffWait := .error "power off failed"
    destroySubmit := .ok (), destroyWait := .ok () }

/-
Helper lemmas shared by the claim theorems.
-/

/-- One iteration of the retry loop when the current guest IP is empty. -/
theorem dhcpPollLoop_step (p : ReadPlatform) (g k : Nat) (mvm : VmSummary) (slept : Int)
    (h : mvm.guestIpAddress = "") :
    dhcpPollLoop p (g + 1) k mvm slept = dhcpPollLoop p g (k + 1) (p.retrieveVal k) (slept + 1) := by
  simp [dhcpPollLoop, h]

/-- The retry loop stops at once, whatever the fuel, when the current guest
IP is non-empty. -/
theorem dhcpPollLoop_halt (p : ReadPlatform) (g k : Nat) (mvm : VmSummary) (slept : Int)
    (h : mvm.guestIpAddress ≠ "") :
    dhcpPollLoop p g k mvm slept = some (k, mvm, slept) := by
  cases g <;> simp [dhcpPollLoop, h]

/-- A read only returns a non-nil error on the datacenter-lookup path, which
leaves the state untouched. -/
theorem read_err_state_unchanged (cfg : ReadConfig) (p : ReadPlatform) (st : ResourceState)
    (fuel : Nat) (r : ReadOutcome)
    (h : resourceVSphereVirtualMachineRead cfg p st fuel = some r)
    (he : r.err.isSome = true) : r.state = st := by
  simp only [resourceVSphereVirtualMachineRead] at h
  split at h
  · cases h
    rfl
  · split at h
    · cases h
      simp at he
    · split at h
      · cases h
        simp [finishRead] at he
      · split at h
        · split at h
          · cases h
          · cases h
            simp [finishRead] at he
        · cases h
          simp [finishRead] at he

/-- The name of the assembled virtual machine is the configured name. -/
theorem buildVirtualMachine_name (cfg : CreateConfig) (vm : VirtualMachineModel)
    (h : buildVirtualMachine cfg = .ok vm) : vm.name = cfg.name := by
  unfold buildVirtualMachine at h
  split at h
  · cases h
  · cases h
    rfl

/-- C7: for every read of a VM whose first network interface specifies a
static IP address, the address-resolution logic returns that static address
immediately: the returned error is nil, the only collector call is the
initial one-round-trip summary fetch, the address-resolution logic performs
zero polling calls, no boot-delay wait happens, and the resulting ip_address
equals the configured static address. -/
theorem read_static_ip_no_polling (cfg : ReadConfig) (p : ReadPlatform) (st : ResourceState)
    (fuel : Nat) (s : String)
    (hdc : lookupDatacenterR cfg p = .ok s)
    (hvm : p.vmLookup = .ok ())
    (hstatic : cfg.nic0IpAddress ≠ "") :
    (resourceVSphereVirtualMachineRead cfg p st fuel).map
        (fun o => (o.err, o.calls, o.pollCalls, o.waited, o.state.ipAddress))
      = some (none, 1, 0, 0, cfg.nic0IpAddress) := by
  simp [resourceVSphereVirtualMachineRead, hdc, hvm, hstatic, finishRead]

/-- C7 witness: a concrete read with a static first interface returns the
static address with one total collector call, zero polling calls and zero
wait. -/
theorem read_static_ip_no_polling_witness :
    (resourceVSphereVirtualMachineRead cfgStaticNic platPollWait stVm1 5).map
        (fun o => (o.err, o.calls, o.pollCalls, o.waited, o.state.ipAddress))
      = some (none, 1, 0, 0, cfgStaticNic.nic0IpAddress) :=
  read_static_ip_no_polling cfgStaticNic platPollWait stVm1 5 "dc1" (by rfl) (by rfl) (by decide)

/-- C6: for every read invocation where the VM name cannot be resolved
within the datacenter scope, the handler clears the tracked identity and
returns nil rather than surfacing the lookup failure. -/
theorem read_vm_not_found_clears_id (cfg : ReadConfig) (p : ReadPlatform) (st : ResourceState)
    (fuel : Nat) (s msg : String)
    (hdc : lookupDatacenterR cfg p = .ok s)
    (hvm : p.vmLookup = .error msg) :
    resourceVSphereVirtualMachineRead cfg p st fuel
      = some { state := { st with id := "" }, err := none, calls := 0, pollCalls := 0, waited := 0 } := by
  simp [resourceVSphereVirtualMachineRead, hdc, hvm]

/-- C6 witness: a concrete read whose VM lookup fails clears the identity
and returns nil. -/
theorem read_vm_not_found_clears_id_witness :
    resourceVSphereVirtualMachineRead cfgBudgetElapsed platVmMissing stVm1 3
      = some { state := { stVm1 with id := "" }, err := none, calls := 0, pollCalls := 0, waited := 0 } :=
  read_vm_not_found_clears_id cfgBudgetElapsed platVmMissing stVm1 3 "dc1" "vm not found"
    (by rfl) (by rfl)

/-- C1 counterexample: with no static IP on the first interface and the
boot-delay budget already exhausted (boot delay 0, boot 100 seconds ago),
the read makes exactly one collector call and returns the empty guest IP of
that already-fetched summary, even though the very next collector call would
have returned 10.0.0.5 — no polling loop is entered, contradicting the
claimed transition to polling. -/
theorem read_budget_elapsed_no_poll_cex :
    (resourceVSphereVirtualMachineRead cfgBudgetElapsed platBudgetElapsed stVm1 5).map
        (fun o => (o.err, o.calls, o.pollCalls, o.state.ipAddress))
      = some (none, 1, 0, "")
    ∧ (platBudgetElapsed.retrieveVal 1).guestIpAddress = "10.0.0.5" := by
  constructor <;> rfl

/-- C1 (amended): for every read of a VM whose first network interface
declares no static IP, when the remaining boot-delay budget is less than or
equal to zero, the address-resolution logic does not poll: it makes no
collector call beyond the initial summary fetch, performs no wait, and
returns the guest-IP field of the already-fetched summary (which may be
empty). -/
theorem read_budget_elapsed_returns_prefetched_ip (cfg : ReadConfig) (p : ReadPlatform)
    (st : ResourceState) (fuel : Nat) (s : String)
    (hdc : lookupDatacenterR cfg p = .ok s)
    (hvm : p.vmLookup = .ok ())
    (hstatic : cfg.nic0IpAddress = "")
    (hrem : cfg.bootDelay - (p.now - (p.retrieveVal 0).bootTime) ≤ 0) :
    (resourceVSphereVirtualMachineRead cfg p st fuel).map
        (fun o => (o.err, o.calls, o.pollCalls, o.waited, o.state.ipAddress))
      = some (none, 1, 0, 0, (p.retrieveVal 0).guestIpAddress) := by
  have hrem' : ¬ (cfg.bootDelay - (p.now - (p.retrieveVal 0).bootTime) > 0) := by omega
  simp [resourceVSphereVirtualMachineRead, hdc, hvm, hstatic, hrem', finishRead]

/-- C1 witness: the amended statement at the concrete elapsed-budget
scenario. -/
theorem read_budget_elapsed_returns_prefetched_ip_witness :
    (resourceVSphereVirtualMachineRead cfgBudgetElapsed platBudgetElapsed stVm1 5).map
        (fun o => (o.err, o.calls, o.pollCalls, o.waited, o.state.ipAddress))
      = some (none, 1, 0, 0, (platBudgetElapsed.retrieveVal 0).guestIpAddress) :=
  read_budget_elapsed_returns_prefetched_ip cfgBudgetElapsed platBudgetElapsed stVm1 5 "dc1"
    (by rfl) (by rfl) (by rfl) (by decide)

/-- C4: after the boot-delay wait, the guest-IP polling retries exactly
while the retrieved guest IP is empty and terminates on the first non-empty
value: against a collector whose post-wait fetch and first retry return an
empty IP and whose next call returns a fixed address, exactly three
collector calls are made after the wait (four in total, counting the initial
summary fetch) and the returned address equals the third post-wait call's
value. -/
theorem poll_retries_until_nonempty (cfg : ReadConfig) (p : ReadPlatform) (st : ResourceState)
    (fuel : Nat) (s : String)
    (hdc : lookupDatacenterR cfg p = .ok s)
    (hvm : p.vmLookup = .ok ())
    (hstatic : cfg.nic0IpAddress = "")
    (hrem : cfg.bootDelay - (p.now - (p.retrieveVal 0).bootTime) > 0)
    (h1 : (p.retrieveVal 1).guestIpAddress = "")
    (h2 : (p.retrieveVal 2).guestIpAddress = "")
    (h3 : (p.retrieveVal 3).guestIpAddress ≠ "")
    (hfuel : 2 ≤ fuel) :
    (resourceVSphereVirtualMachineRead cfg p st fuel).map
        (fun o => (o.err, o.calls, o.pollCalls, o.state.ipAddress))
      = some (none, 4, 3, (p.retrieveVal 3).guestIpAddress) := by
  obtain ⟨f, rfl⟩ : ∃ f, fuel = f + 2 := ⟨fuel - 2, by omega⟩
  have hloop : dhcpPollLoop p (f + 2) 2 (p.retrieveVal 1) 0 = some (4, p.retrieveVal 3, 2) := by
    rw [show f + 2 = (f + 1) + 1 from rfl,
      dhcpPollLoop_step p (f + 1) 2 (p.retrieveVal 1) 0 h1]
    norm_num
    rw [dhcpPollLoop_step p f 3 (p.retrieveVal 2) 1 h2]
    norm_num
    rw [dhcpPollLoop_halt p f 4 (p.retrieveVal 3) 2 h3]
  simp [resourceVSphereVirtualMachineRead, hdc, hvm, hstatic, hrem, hloop, finishRead]

/-- C4 witness: the concrete empty-empty-address collector stub with a
30-second budget and 10 seconds since boot: four total collector calls,
three of them by the polling logic, and the address of the third polling
call is returned. -/
theorem poll_retries_until_nonempty_witness :
    (resourceVSphereVirtualMachineRead cfgPollWait platPollWait stVm1 2).map
        (fun o => (o.err, o.calls, o.pollCalls, o.state.ipAddress))
      = some (none, 4, 3, (platPollWait.retrieveVal 3).guestIpAddress) :=
  poll_retries_until_nonempty cfgPollWait platPollWait stVm1 2 "dc1"
    (by rfl) (by rfl) (by rfl) (by decide) (by rfl) (by rfl) (by decide) (by decide)

/-- C10: the read handler assigns the error result of every RetrieveOne call
and never inspects it, so replacing the whole stream of retrieval-error
flags changes nothing about a read invocation: neither its returned error
nor any written-back field.  A retrieval failure therefore cannot surface
in the read's result, and the fields are populated from whatever (possibly
zero-valued or stale) summary the collector left behind. -/
theorem read_ignores_retrieval_errors (cfg : ReadConfig) (p : ReadPlatform) (st : ResourceState)
    (fuel : Nat) (e : Nat → Bool) :
    resourceVSphereVirtualMachineRead cfg { p with retrieveErr := e } st fuel
      = resourceVSphereVirtualMachineRead cfg p st fuel := by
  have hloop : ∀ g k mvm slept,
      dhcpPollLoop { p with retrieveErr := e } g k mvm slept = dhcpPollLoop p g k mvm slept := by
    intro g
    induction g with
    | zero => intro k mvm slept; rfl
    | succ g ih =>
      intro k mvm slept
      by_cases hip : mvm.guestIpAddress = ""
      · rw [dhcpPollLoop_step { p with retrieveErr := e } g k mvm slept hip,
          dhcpPollLoop_step p g k mvm slept hip]
        exact ih (k + 1) (p.retrieveVal k) (slept + 1)
      · rw [dhcpPollLoop_halt { p with retrieveErr := e } (g + 1) k mvm slept hip,
          dhcpPollLoop_halt p (g + 1) k mvm slept hip]
  simp only [resourceVSphereVirtualMachineRead, lookupDatacenterR, hloop]

/-- C2: code-bug demonstration.  For the spec with an empty first-disk
template and an absent first-disk size (the int-typed schema value reads as
0), the disk loop accepts the disk with size 0 — the guard
`d.Get(prefix + ".size") != ""` compares an int-typed value to a string and
is therefore always true, making the validation error unreachable — and the
create handler proceeds to issue the createVirtualMachine platform call and
returns nil instead of the required validation error. -/
theorem create_missing_size_skips_validation :
    scanDisks cfgNoSize.disks = .ok ("", "", [{ size := 0, iops := 0 }])
    ∧ (resourceVSphereVirtualMachineCreate cfgNoSize platCreateOk st0 5).map
          (fun o => (o.err, o.provisionCalls))
        = some (none, 1) := by
  constructor <;> rfl

/-- C3 counterexample: a create whose provisioning succeeds sets the tracked
identity to the VM name before invoking the read handler; when that read
then fails in the datacenter lookup, the create returns an error while the
identity is left set to "vm1" — a failed create that does leave a
tracked-resource key behind. -/
theorem create_error_sets_id_cex :
    st0.id = ""
    ∧ (resourceVSphereVirtualMachineCreate cfgSized platCreateReadFail st0 5).map
          (fun o => (o.err, o.state.id))
        = some (some "dc gone", "vm1") := by
  constructor <;> rfl

/-- C3 (amended): stage-by-stage mapping of create failures to the tracked
identity.  A validation error (disk-loop failure) returns that error with
the state completely unchanged and zero provisioning calls, so an initially
empty identity stays empty; a provisioning (deploy/create task) error
likewise returns the wrapped error with the state unchanged, identity still
empty; only when provisioning succeeded — the identity having been set to
the VM name just before the trailing read — can an erroring create leave the
identity behind, and then it equals the configured name. -/
theorem create_error_id_cases (cfg : CreateConfig) (p : CreatePlatform) (st : ResourceState)
    (fuel : Nat) :
    (∀ e, buildVirtualMachine cfg = .error e →
        resourceVSphereVirtualMachineCreate cfg p st fuel
          = some { state := st, err := some e, provisionCalls := 0, readCalls := 0 })
    ∧ (∀ vm e, buildVirtualMachine cfg = .ok vm →
        (if vm.template != "" then p.deployResult else p.createResult) = .error e →
        resourceVSphereVirtualMachineCreate cfg p st fuel
          = some { state := st, err := some ("error: " ++ e), provisionCalls := 1, readCalls := 0 })
    ∧ (∀ vm out, buildVirtualMachine cfg = .ok vm →
        (if vm.template != "" then p.deployResult else p.createResult) = .ok () →
        resourceVSphereVirtualMachineCreate cfg p st fuel = some out →
        out.err.isSome = true →
        out.state.id = cfg.name) := by
  refine ⟨?_, ?_, ?_⟩
  · intro e he
    simp [resourceVSphereVirtualMachineCreate, he]
  · intro vm e hvm hp
    by_cases ht : (vm.template != "") = true
    · rw [if_pos ht] at hp
      simp only [bne_iff_ne, ne_eq] at ht
      simp [resourceVSphereVirtualMachineCreate, hvm, hp, ht]
    · rw [if_neg ht] at hp
      simp only [bne_iff_ne, ne_eq, not_not] at ht
      simp [resourceVSphereVirtualMachineCreate, hvm, hp, ht]
  · intro vm out hvm hp hout hsome
    simp only [resourceVSphereVirtualMachineCreate, hvm, hp] at hout
    split at hout
    · cases hout
    · next r hr =>
      cases hout
      have hst : r.state = { st with id := vm.name } :=
        read_err_state_unchanged _ _ _ _ _ hr hsome
      show r.state.id = cfg.name
      rw [hst]
      exact buildVirtualMachine_name cfg vm hvm

/-- C3 witness: at concrete inputs, a failed provisioning task leaves the
initially empty state (hence the identity) untouched, while the
provisioning-succeeds-read-fails scenario leaves the identity equal to the
configured name. -/
theorem create_error_id_cases_witness :
    resourceVSphereVirtualMachineCreate cfgSized platCreateProvFail st0 5
        = some { state := st0, err := some ("error: " ++ "task failed")
                 provisionCalls := 1, readCalls := 0 }
    ∧ outCreateReadFail.state.id = cfgSized.name :=
  ⟨(create_error_id_cases cfgSized platCreateProvFail st0 5).2.1 vmSized "task failed"
      (by rfl) (by rfl),
   (create_error_id_cases cfgSized platCreateReadFail st0 5).2.2 vmSized outCreateReadFail
      (by rfl) (by rfl) (by rfl) (by rfl)⟩

/-- C9 counterexample: a concrete update invocation that requests a changed
memory value (4096 against a live state holding 2048) returns the state
completely unchanged with a nil error — the update handler applies
nothing. -/
theorem update_noop_cex :
    resourceVSphereVirtualMachineUpdate updCfgChanged stReconciled = (stReconciled, none)
    ∧ updCfgChanged.memory ≠ stReconciled.memory := by
  constructor
  · rfl
  · decide

/-- C9 (amended): the update handler is a no-op: its body is a single
`return nil`, so for every update invocation it returns the state untouched
and a nil error; no mutable-field change is ever applied by the update
flow. -/
theorem update_is_noop (cfg : UpdateConfig) (st : ResourceState) :
    resourceVSphereVirtualMachineUpdate cfg st = (st, none) := rfl

/-- C5: for every delete invocation, whenever the destroy task is submitted,
the power-off task was submitted and awaited successfully strictly before
it — the trace begins with datacenter lookup, VM lookup, power-off submit,
power-off wait, destroy submit, in that order — and if the power-off
submission or its wait fails, the destroy task is never submitted. -/
theorem delete_poweroff_strictly_before_destroy (cfg : DeleteConfig) (p : DeletePlatform)
    (st : ResourceState) :
    (DeleteEvent.destroySubmit ∈ (resourceVSphereVirtualMachineDelete cfg p st).1 →
        p.powerOffSubmit = .ok () ∧ p.powerOffWait = .ok ()
          ∧ (resourceVSphereVirtualMachineDelete cfg p st).1.take 5
            = [.dcLookup, .vmLookup, .powerOffSubmit, .powerOffWait, .destroySubmit])
    ∧ ((p.powerOffSubmit ≠ .ok () ∨ p.powerOffWait ≠ .ok ()) →
        DeleteEvent.destroySubmit ∉ (resourceVSphereVirtualMachineDelete cfg p st).1) := by
  rcases hdc : lookupDatacenterD cfg p with e1 | d1 <;>
    rcases hvm : p.vmLookup with e2 | u2 <;>
    rcases hps : p.powerOffSubmit with e3 | u3 <;>
    rcases hpw : p.powerOffWait with e4 | u4 <;>
    rcases hds : p.destroySubmit with e5 | u5 <;>
    rcases hdw : p.destroyWait with e6 | u6 <;>
    simp_all [resourceVSphereVirtualMachineDelete, fullDeleteTrace]

/-- C5 witness: against an all-succeeding platform the destroy submission
happens and the first five recorded calls are datacenter lookup, VM lookup,
power-off submit, power-off wait, destroy submit, in that order. -/
theorem delete_poweroff_strictly_before_destroy_witness :
    platDeleteOk.powerOffSubmit = .ok () ∧ platDeleteOk.powerOffWait = .ok ()
      ∧ (resourceVSphereVirtualMachineDelete cfgDel platDeleteOk stVm1).1.take 5
        = [.dcLookup, .vmLookup, .powerOffSubmit, .powerOffWait, .destroySubmit] :=
  (delete_poweroff_strictly_before_destroy cfgDel platDeleteOk stVm1).1 (by decide)

/-- C8: for every delete invocation that returns an error — datacenter
lookup, VM lookup, power-off submit or wait, destroy submit or wait — the
state, and in particular the tracked identity, is left unchanged; the
identity is cleared exactly when the whole sequence succeeds. -/
theorem delete_error_keeps_identity (cfg : DeleteConfig) (p : DeletePlatform)
    (st : ResourceState) :
    ((resourceVSphereVirtualMachineDelete cfg p st).2.2.isSome = true →
        (resourceVSphereVirtualMachineDelete cfg p st).2.1 = st)
    ∧ ((resourceVSphereVirtualMachineDelete cfg p st).2.2 = none →
        (resourceVSphereVirtualMachineDelete cfg p st).2.1 = { st with id := "" }) := by
  rcases hdc : lookupDatacenterD cfg p with e1 | d1 <;>
    rcases hvm : p.vmLookup with e2 | u2 <;>
    rcases hps : p.powerOffSubmit with e3 | u3 <;>
    rcases hpw : p.powerOffWait with e4 | u4 <;>
    rcases hds : p.destroySubmit with e5 | u5 <;>
    rcases hdw : p.destroyWait with e6 | u6 <;>
    simp_all [resourceVSphereVirtualMachineDelete]

/-- C8 witness: a delete whose power-off wait fails returns an error and
leaves the tracked identity (and all state) unchanged. -/
theorem delete_error_keeps_identity_witness :
    (resourceVSphereVirtualMachineDelete cfgDel platDeletePoFail stVm1).2.1 = stVm1 :=
  (delete_error_keeps_identity cfgDel platDeletePoFail stVm1).1 (by decide)

end VSphereVM
